import Mathlib

/-!
Verification development for the cardiac-MRI preprocessing notebook
(`notebooks/1_Preprocessing.ipynb`).

The notebook segments each image (Otsu threshold, morphological closing,
connected-component labelling), selects one region of interest per image
with a hand-tuned heuristic (`find_target_region`), encodes the chosen
region as a 10-element vocabulary vector (`extract_vocab`), and runs a
two-pass batch driver (`extract_region_labels_from_images` followed by
`extract_vocab_from_region_labels`) that accumulates a shared
`failed_indexes` list across both passes.

Embedding choices:
* Pixel-level library calls (`threshold_otsu`, `closing`, `label`,
  `regionprops` from skimage) are external library code; they are
  modelled as oracle parameters: stage one of the pipeline is a
  `Except ℚ α` value per image (the error payload is the diagnostic
  maximum intensity that the notebook attaches to its `ValueError`),
  and `regionprops` is a function from a label map to the list of
  region descriptors it produces.
* Floating-point numbers are modelled as exact rationals `ℚ`.
* Python `sorted(..., key=k)` is a stable sort by the key; it is
  modelled by `List.insertionSort` with the relation `k x ≤ k y`,
  which is stable and produces the same ordering.
* `np.linalg.norm(bottom_left - centroid)` is used only as a sort key;
  since the square root is strictly monotone, comparing norms is the
  same as comparing squared distances, so the embedding sorts by the
  exact squared distance `distSq`.
* `region_labels = np.empty(images.shape)` leaves the buffer with
  arbitrary contents; the embedding takes that arbitrary initial
  content as an explicit parameter `junk`.
-/

/-- Region descriptor, mirroring the `regionprops` attributes the
notebook reads. The centroid is a (row, column) pair. -/
structure RegionDescriptor where
  area : ℚ
  eccentricity : ℚ
  centroid : ℚ × ℚ
  equivalent_diameter : ℚ
  extent : ℚ
  major_axis_length : ℚ
  minor_axis_length : ℚ
  perimeter : ℚ
  max_intensity : ℚ
  mean_intensity : ℚ
  min_intensity : ℚ
  deriving DecidableEq, Inhabited

/-- Tunable parameter from `find_target_region`: WIDTH_DELTA_THRESHOLD = 25. -/
def WIDTH_DELTA_THRESHOLD : ℚ := 25

/-- Tunable parameter from `find_target_region`: HEIGHT_DELTA_THRESHOLD = 15. -/
def HEIGHT_DELTA_THRESHOLD : ℚ := 15

/-- Tunable parameter from `find_target_region`: AREA_THRESHOLD = 30. -/
def AREA_THRESHOLD : ℚ := 30

/-- Tunable parameter from `find_target_region`: ECCENTRICITY_THRESHOLD = 0.98. -/
def ECCENTRICITY_THRESHOLD : ℚ := 0.98

/-- The filter predicate of `find_target_region`:
`x.area >= AREA_THRESHOLD and x.eccentricity < ECCENTRICITY_THRESHOLD`. -/
def survivesFilter (x : RegionDescriptor) : Bool :=
  decide (AREA_THRESHOLD ≤ x.area) && decide (x.eccentricity < ECCENTRICITY_THRESHOLD)

/-- Helper `two_regions_close` of `find_target_region`: two regions are
close when the absolute column-centroid difference is below
WIDTH_DELTA_THRESHOLD and the absolute row-centroid difference is below
HEIGHT_DELTA_THRESHOLD; any list whose length is not 2 yields `false`. -/
def two_regions_close (two_regions : List RegionDescriptor) : Bool :=
  match two_regions with
  | [r0, r1] =>
      decide (|r0.centroid.2 - r1.centroid.2| < WIDTH_DELTA_THRESHOLD) &&
      decide (|r0.centroid.1 - r1.centroid.1| < HEIGHT_DELTA_THRESHOLD)
  | _ => false

/-- Squared Euclidean distance between two (row, column) points. The
notebook sorts by `np.linalg.norm`; since the square root is strictly
monotone, sorting by the squared distance yields the same order. -/
def distSq (p q : ℚ × ℚ) : ℚ :=
  (p.1 - q.1) * (p.1 - q.1) + (p.2 - q.2) * (p.2 - q.2)

/-- Python `sorted(l, key=k)`: a stable sort ascending by key, modelled
by insertion sort with the relation `k x ≤ k y` (which is stable). -/
def pySorted {α : Type} (key : α → ℚ) (l : List α) : List α :=
  l.insertionSort (fun x y => key x ≤ key y)

/-- The selection heuristic `find_target_region`, acting on the
descriptor list that `regionprops` returns for one image:
1. keep descriptors passing the area/eccentricity filter; if none
   survive, raise a ValueError whose payload is the list of (r.area, r.eccentricity) pairs;
2. keep the top 2 by descending mean intensity;
3. if the two survivors are close, return the one with the larger
   column centroid; otherwise return the survivor whose centroid is
   nearest the bottom-left corner `(image.shape[0], 0)`. -/
def find_target_region (regions : List RegionDescriptor) (imageHeight : ℚ) :
    Except (List (ℚ × ℚ)) RegionDescriptor :=
  if (regions.filter survivesFilter).isEmpty then
    Except.error (regions.map fun r => (r.area, r.eccentricity))
  else if two_regions_close
      ((pySorted (fun x => -x.mean_intensity) (regions.filter survivesFilter)).take 2) then
    Except.ok ((pySorted (fun x => -x.centroid.2)
      ((pySorted (fun x => -x.mean_intensity) (regions.filter survivesFilter)).take 2)).headD default)
  else
    Except.ok ((pySorted (fun x => distSq (imageHeight, 0) x.centroid)
      ((pySorted (fun x => -x.mean_intensity) (regions.filter survivesFilter)).take 2)).headD default)

/-- Field lookup used by `extract_vocab`: `region[fields[i]]` for the
fixed field-name list of the notebook. -/
def vocabField (region : RegionDescriptor) : Nat → ℚ
  | 0 => region.area
  | 1 => region.eccentricity
  | 2 => region.equivalent_diameter
  | 3 => region.extent
  | 4 => region.major_axis_length
  | 5 => region.minor_axis_length
  | 6 => region.perimeter
  | 7 => region.max_intensity
  | 8 => region.mean_intensity
  | 9 => region.min_intensity
  | _ => 0

/-- `extract_vocab`: fill a 10-vector with `region[fields[i]]` for
`i = 0..9`. -/
def extract_vocab (region : RegionDescriptor) : List ℚ :=
  (List.range 10).map (vocabField region)

/-- Outcome of the per-image pipeline: a vocabulary vector, a
thresholding failure (carrying the diagnostic maximum intensity that
`extract_region_label` attaches to its `ValueError`), or a selection
failure (carrying the (area, eccentricity) payload of the raised
`ValueError`). -/
inductive PipelineResult where
  | ok (vocab : List ℚ)
  | thresholdErrorCase (maxIntensity : ℚ)
  | noCandidate (payload : List (ℚ × ℚ))
  deriving DecidableEq

/-- The per-image pipeline Thresholder → Labeler → Extractor →
RegionSelector → VocabularyEncoder. `s1` is the result of
`extract_region_label` on the image (stage-one oracle), `props` the
`regionprops` oracle, `height` the number of image rows. -/
def runPipeline {α : Type} (s1 : Except ℚ α) (props : α → List RegionDescriptor)
    (height : ℚ) : PipelineResult :=
  match s1 with
  | Except.error m => PipelineResult.thresholdErrorCase m
  | Except.ok l =>
    match find_target_region (props l) height with
    | Except.error payload => PipelineResult.noCandidate payload
    | Except.ok r => PipelineResult.ok (extract_vocab r)

/-- Loop body of `extract_region_labels_from_images`: for each index,
on success store the label map at that index, on `ValueError` append
the pair (i, extract_region_label) to the shared failure list. -/
def regionLabelsLoop {α : Type} (stage1 : Nat → Except ℚ α) :
    List Nat → (Nat → α) × List (Nat × String) → (Nat → α) × List (Nat × String)
  | [], st => st
  | i :: is, st =>
    match stage1 i with
    | Except.ok l => regionLabelsLoop stage1 is (Function.update st.1 i l, st.2)
    | Except.error _ => regionLabelsLoop stage1 is (st.1, st.2 ++ [(i, "extract_region_label")])

/-- `extract_region_labels_from_images`: the buffer starts as
`np.empty(images.shape)` (arbitrary contents `junk`), the loop runs
over image indices `0..n-1`, and failures are appended to the shared
`failed_indexes` list (initially empty). -/
def extract_region_labels_from_images {α : Type} (stage1 : Nat → Except ℚ α)
    (junk : Nat → α) (n : Nat) : (Nat → α) × List (Nat × String) :=
  regionLabelsLoop stage1 (List.range n) (junk, [])

/-- One iteration of the `extract_vocab_from_region_labels` loop: run
`find_target_region(region_labels[i], images[i])`; on success write
column `i` of the vocab matrix, on `ValueError` append
the pair (i, find_target_region) to the shared failure list. The state is
(list of matrix columns, failure list). -/
def vocabStep {α : Type} (props : Nat → α → List RegionDescriptor) (height : ℚ)
    (labels : Nat → α) (st : List (List ℚ) × List (Nat × String)) (i : Nat) :
    List (List ℚ) × List (Nat × String) :=
  match find_target_region (props i (labels i)) height with
  | Except.ok r => (st.1.set i (extract_vocab r), st.2)
  | Except.error _ => (st.1, st.2 ++ [(i, "find_target_region")])

/-- The `extract_vocab_from_region_labels` loop over a list of image
indices. -/
def vocabLoop {α : Type} (props : Nat → α → List RegionDescriptor) (height : ℚ)
    (labels : Nat → α) :
    List Nat → List (List ℚ) × List (Nat × String) → List (List ℚ) × List (Nat × String)
  | [], st => st
  | i :: is, st => vocabLoop props height labels is (vocabStep props height labels st i)

/-- `extract_vocab_from_region_labels`: the matrix starts as
`np.zeros((10, n))` (here: `n` columns of 10 zeros), the loop runs over
image indices `0..n-1`, and failures continue the shared
`failed_indexes` list `fails0` accumulated by the first pass. -/
def extract_vocab_from_region_labels {α : Type} (props : Nat → α → List RegionDescriptor)
    (height : ℚ) (labels : Nat → α) (n : Nat) (fails0 : List (Nat × String)) :
    List (List ℚ) × List (Nat × String) :=
  vocabLoop props height labels (List.range n)
    (List.replicate n (List.replicate 10 0), fails0)

/-- Batch output: the vocab matrix (column `i` is the 10-vector for
image `i`) and the shared `failed_indexes` list of
(image index, failing stage name) pairs. -/
structure BatchResult where
  vocab_matrix : List (List ℚ)
  failed_indexes : List (Nat × String)
  deriving DecidableEq

/-- The notebook driver: run `extract_region_labels_from_images` over
all images, then `extract_vocab_from_region_labels` over the resulting
label buffer, both passes appending to the same `failed_indexes` list. -/
def batchRun {α : Type} (stage1 : Nat → Except ℚ α) (junk : Nat → α)
    (props : Nat → α → List RegionDescriptor) (height : ℚ) (n : Nat) : BatchResult :=
  ⟨(extract_vocab_from_region_labels props height
      (extract_region_labels_from_images stage1 junk n).1 n
      (extract_region_labels_from_images stage1 junk n).2).1,
   (extract_vocab_from_region_labels props height
      (extract_region_labels_from_images stage1 junk n).1 n
      (extract_region_labels_from_images stage1 junk n).2).2⟩

/-- Stage-one failure predicate for image `i`: `extract_region_label`
raised (the Otsu threshold was undefined). -/
def stageOneFails {α : Type} (stage1 : Nat → Except ℚ α) (i : Nat) : Bool :=
  match stage1 i with
  | Except.ok _ => false
  | Except.error _ => true

/-- Stage-two failure predicate for image `i`: `find_target_region`
raised on the label buffer entry for `i`. -/
def selectorFails {α : Type} (props : Nat → α → List RegionDescriptor) (height : ℚ)
    (labels : Nat → α) (i : Nat) : Bool :=
  match find_target_region (props i (labels i)) height with
  | Except.ok _ => false
  | Except.error _ => true

/-- Concrete descriptor builder for witness inputs: given area,
eccentricity, mean intensity and a (row, column) centroid, all other
fields are zero. -/
def mkDesc (a e mi row col : ℚ) : RegionDescriptor :=
  { area := a, eccentricity := e, centroid := (row, col),
    equivalent_diameter := 0, extent := 0, major_axis_length := 0,
    minor_axis_length := 0, perimeter := 0, max_intensity := 0,
    mean_intensity := mi, min_intensity := 0 }

/-- Witness input: a tiny noise blob (area 5), removed by the filter. -/
def descTiny : RegionDescriptor := mkDesc 5 0 1 0 0

/-- Witness input: a large round blob (area 50) that survives the
filter; mean intensity 10, centroid (50, 50). -/
def descBig : RegionDescriptor := mkDesc 50 0 10 50 50

/-- Witness input: boundary case, eccentricity exactly 0.98 (rejected). -/
def descE98 : RegionDescriptor := mkDesc 100 0.98 1 0 0

/-- Witness input: boundary case, area exactly 30 (kept). -/
def descA30 : RegionDescriptor := mkDesc 30 0.5 1 0 0

/-- Witness input: close-pair member with centroid (10, 10). -/
def descC1 : RegionDescriptor := mkDesc 50 0 10 10 10

/-- Witness input: close-pair member with centroid (10, 30). -/
def descC2 : RegionDescriptor := mkDesc 50 0 10 10 30

/-- Witness input: far-pair member with centroid (5, 5). -/
def descF1 : RegionDescriptor := mkDesc 50 0 10 5 5

/-- Witness input: far-pair member with centroid (90, 5). -/
def descF2 : RegionDescriptor := mkDesc 50 0 10 90 5

/-! ## Helper lemmas -/

/-- A stable sort by key is a permutation of its input. -/
theorem pySorted_perm {α : Type} (key : α → ℚ) (l : List α) :
    (pySorted key l).Perm l :=
  List.perm_insertionSort _ l

/-- A stable sort by key is sorted with respect to the key ordering. -/
theorem pySorted_sorted {α : Type} (key : α → ℚ) (l : List α) :
    (pySorted key l).Sorted (fun x y => key x ≤ key y) := by
  haveI ht : IsTotal α (fun x y => key x ≤ key y) := ⟨fun a b => le_total (key a) (key b)⟩
  haveI htr : IsTrans α (fun x y => key x ≤ key y) :=
    ⟨fun a b c hab hbc => le_trans hab hbc⟩
  exact List.sorted_insertionSort _ l

/-- The head of a nonempty key-sorted list is a member of the original
list and has minimal key among its elements. -/
theorem pySorted_headD_min {α : Type} (key : α → ℚ) (l : List α) (d : α) (hne : l ≠ []) :
    (pySorted key l).headD d ∈ l ∧
      ∀ x ∈ l, key ((pySorted key l).headD d) ≤ key x := by
  have hperm := pySorted_perm key l
  have hs := pySorted_sorted key l
  cases hout : pySorted key l with
  | nil =>
    rw [hout] at hperm
    exact absurd hperm.symm.eq_nil hne
  | cons h t =>
    rw [hout] at hperm hs
    refine ⟨hperm.subset (List.mem_cons_self h t), ?_⟩
    intro x hx
    have hx2 : x ∈ h :: t := hperm.symm.subset hx
    rcases List.mem_cons.mp hx2 with heq | hxt
    · subst heq; simp
    · simpa using (List.sorted_cons.mp hs).1 x hxt

/-- The failure entries appended by the first-pass loop are exactly the
stage-one-failing indices, in input order. -/
theorem regionLabelsLoop_failed {α : Type} (stage1 : Nat → Except ℚ α) (is : List Nat)
    (st : (Nat → α) × List (Nat × String)) :
    (regionLabelsLoop stage1 is st).2 =
      st.2 ++ (is.filter (stageOneFails stage1)).map (fun i => (i, "extract_region_label")) := by
  induction is generalizing st with
  | nil => simp [regionLabelsLoop]
  | cons i is ih =>
    cases h : stage1 i with
    | ok l =>
      simp only [regionLabelsLoop, h, List.filter_cons, stageOneFails]
      rw [ih]
      simp
    | error m =>
      simp only [regionLabelsLoop, h, List.filter_cons, stageOneFails]
      rw [ih]
      simp

/-- The failure entries appended by the second-pass loop are exactly the
selector-failing indices, in input order. -/
theorem vocabLoop_failed {α : Type} (props : Nat → α → List RegionDescriptor) (height : ℚ)
    (labels : Nat → α) (is : List Nat) (st : List (List ℚ) × List (Nat × String)) :
    (vocabLoop props height labels is st).2 =
      st.2 ++ (is.filter (selectorFails props height labels)).map
        (fun i => (i, "find_target_region")) := by
  induction is generalizing st with
  | nil => simp [vocabLoop]
  | cons i is ih =>
    cases h : find_target_region (props i (labels i)) height with
    | ok r =>
      simp only [vocabLoop, vocabStep, h, List.filter_cons, selectorFails]
      rw [ih]
      simp
    | error e =>
      simp only [vocabLoop, vocabStep, h, List.filter_cons, selectorFails]
      rw [ih]
      simp

/-! ## Claim theorems -/

/-- C3: the filter stage of `find_target_region` discards exactly the
descriptors with area < 30 or eccentricity ≥ 0.98 (area exactly 30 is
kept, eccentricity exactly 0.98 is rejected); it fails if and only if no
descriptor survives the filter, and the error payload is the
(area, eccentricity) pair of every raw candidate, so the payload length
equals the raw candidate count. -/
theorem find_target_region_noCandidate (regions : List RegionDescriptor) (height : ℚ)
    (hempty : regions.filter survivesFilter = []) :
    find_target_region regions height =
      Except.error (regions.map fun r => (r.area, r.eccentricity)) ∧
    (regions.map fun r => (r.area, r.eccentricity)).length = regions.length ∧
    (∀ r : RegionDescriptor,
      survivesFilter r = false ↔ (r.area < 30 ∨ (0.98:ℚ) ≤ r.eccentricity)) ∧
    (∀ (rs : List RegionDescriptor) (h2 : ℚ), rs.filter survivesFilter ≠ [] →
      ∃ r, find_target_region rs h2 = Except.ok r) := by
  refine ⟨?_, by simp, ?_, ?_⟩
  · simp [find_target_region, hempty]
  · intro r
    simp only [survivesFilter, AREA_THRESHOLD, ECCENTRICITY_THRESHOLD,
      Bool.and_eq_false_iff, decide_eq_false_iff_not, not_le, not_lt]
  · intro rs h2 hne
    cases hie : (rs.filter survivesFilter).isEmpty with
    | true => exact absurd (List.isEmpty_iff.mp hie) hne
    | false =>
      cases hcl : two_regions_close
          ((pySorted (fun x => -x.mean_intensity) (rs.filter survivesFilter)).take 2) with
      | true =>
        refine ⟨(pySorted (fun x => -x.centroid.2)
            ((pySorted (fun x => -x.mean_intensity) (rs.filter survivesFilter)).take 2)).headD
              default, ?_⟩
        unfold find_target_region
        rw [hie, hcl]
        simp
      | false =>
        refine ⟨(pySorted (fun x => distSq (h2, 0) x.centroid)
            ((pySorted (fun x => -x.mean_intensity) (rs.filter survivesFilter)).take 2)).headD
              default, ?_⟩
        unfold find_target_region
        rw [hie, hcl]
        simp

/-- Witness for C3: a single descriptor with eccentricity exactly 0.98
is rejected by the filter, `find_target_region` fails, and its payload
lists the raw (area, eccentricity) pair; a descriptor with area exactly
30 is kept. -/
theorem find_target_region_noCandidate_witness :
    find_target_region [descE98] 100 = Except.error [(100, 0.98)] ∧
    survivesFilter descA30 = true :=
  ⟨(find_target_region_noCandidate [descE98] 100 (by with_unfolding_all rfl)).1,
   by with_unfolding_all rfl⟩

/-- C6: when exactly one descriptor survives the area/eccentricity
filter, `find_target_region` returns it (the proximity test is false for
a one-element candidate list, and the lone survivor falls through the
tie-break logic). -/
theorem find_target_region_single_survivor (regions : List RegionDescriptor) (height : ℚ)
    (r : RegionDescriptor) (h : regions.filter survivesFilter = [r]) :
    find_target_region regions height = Except.ok r := by
  unfold find_target_region
  rw [h]
  rfl

/-- Witness for C6: of a tiny blob and a large blob, only the large one
survives the filter, and it is selected. -/
theorem find_target_region_single_survivor_witness :
    find_target_region [descTiny, descBig] 100 = Except.ok descBig :=
  find_target_region_single_survivor [descTiny, descBig] 100 descBig
    (by with_unfolding_all rfl)

/-- C7: the vocabulary vector of a region is exactly
[area, eccentricity, equivalent_diameter, extent, major_axis_length,
minor_axis_length, perimeter, max_intensity, mean_intensity,
min_intensity], in that order. -/
theorem extract_vocab_field_order (region : RegionDescriptor) :
    extract_vocab region =
      [region.area, region.eccentricity, region.equivalent_diameter, region.extent,
       region.major_axis_length, region.minor_axis_length, region.perimeter,
       region.max_intensity, region.mean_intensity, region.min_intensity] := rfl

/-- C4: when exactly two candidates remain after keeping the top 2 by
descending mean intensity, and their absolute column-centroid difference
is below 25 while their absolute row-centroid difference is below 15,
`find_target_region` returns the candidate with the larger column
centroid (the rightmost one). -/
theorem find_target_region_close_rightmost (regions : List RegionDescriptor) (height : ℚ)
    (a b : RegionDescriptor)
    (htop : (pySorted (fun x => -x.mean_intensity) (regions.filter survivesFilter)).take 2
      = [a, b])
    (hw : |a.centroid.2 - b.centroid.2| < 25)
    (hh : |a.centroid.1 - b.centroid.1| < 15) :
    find_target_region regions height =
      Except.ok (if b.centroid.2 ≤ a.centroid.2 then a else b) ∧
    (if b.centroid.2 ≤ a.centroid.2 then a else b).centroid.2
      = max a.centroid.2 b.centroid.2 := by
  have hfil : regions.filter survivesFilter ≠ [] := by
    intro hf
    rw [hf] at htop
    simp [pySorted] at htop
  have hfe : (regions.filter survivesFilter).isEmpty = false :=
    List.isEmpty_eq_false.mpr hfil
  have hclose : two_regions_close
      ((pySorted (fun x => -x.mean_intensity) (regions.filter survivesFilter)).take 2)
        = true := by
    rw [htop]
    simp only [two_regions_close, Bool.and_eq_true, decide_eq_true_eq]
    exact ⟨hw, hh⟩
  constructor
  · unfold find_target_region
    rw [hfe, hclose, htop]
    simp only [Bool.false_eq_true, if_false, if_true]
    by_cases hc : b.centroid.2 ≤ a.centroid.2
    · rw [if_pos hc]
      have hab : -a.centroid.2 ≤ -b.centroid.2 := neg_le_neg hc
      simp [pySorted, hab]
    · rw [if_neg hc]
      have hab : ¬ (-a.centroid.2 ≤ -b.centroid.2) := fun hcon =>
        hc (neg_le_neg_iff.mp hcon)
      simp [pySorted, hab]
  · by_cases hc : b.centroid.2 ≤ a.centroid.2
    · rw [if_pos hc, max_eq_left hc]
    · rw [if_neg hc, max_eq_right (le_of_not_le hc)]

/-- Witness for C4: the two close blobs of the spec example, centroids
(10, 10) and (10, 30) with equal mean intensity, yield the blob with
centroid (10, 30). -/
theorem find_target_region_close_rightmost_witness :
    find_target_region [descC1, descC2] 100 = Except.ok descC2 := by
  have h := (find_target_region_close_rightmost [descC1, descC2] 100 descC1 descC2
    (by with_unfolding_all rfl) (by with_unfolding_all decide)
    (by with_unfolding_all decide)).1
  rw [h, if_neg (by with_unfolding_all decide :
    ¬ (descC2.centroid.2 ≤ descC1.centroid.2))]

/-- C5: when the surviving top-mean-intensity candidates are not close
under the proximity test, `find_target_region` returns a candidate whose
centroid has minimal distance (equivalently minimal squared distance,
and minimal Euclidean distance) to the bottom-left corner
(image height, 0). -/
theorem find_target_region_fallback_bottom_left (regions : List RegionDescriptor)
    (height : ℚ) (l : List RegionDescriptor)
    (htop : (pySorted (fun x => -x.mean_intensity) (regions.filter survivesFilter)).take 2
      = l)
    (hne : l ≠ [])
    (hfar : two_regions_close l = false) :
    ∃ r, find_target_region regions height = Except.ok r ∧ r ∈ l ∧
      (∀ x ∈ l, distSq (height, 0) r.centroid ≤ distSq (height, 0) x.centroid) ∧
      (∀ x ∈ l, Real.sqrt (Rat.cast (distSq (height, 0) r.centroid)) ≤
        Real.sqrt (Rat.cast (distSq (height, 0) x.centroid))) := by
  have hfil : regions.filter survivesFilter ≠ [] := by
    intro hf
    rw [hf] at htop
    simp [pySorted] at htop
    exact hne htop
  have hfe : (regions.filter survivesFilter).isEmpty = false :=
    List.isEmpty_eq_false.mpr hfil
  have hmin := pySorted_headD_min (fun x => distSq (height, 0) x.centroid) l default hne
  refine ⟨(pySorted (fun x => distSq (height, 0) x.centroid) l).headD default,
    ?_, ?_, ?_, ?_⟩
  · unfold find_target_region
    rw [hfe, htop, hfar]
    simp
  · exact hmin.1
  · exact hmin.2
  · intro x hx
    exact Real.sqrt_le_sqrt (by exact_mod_cast hmin.2 x hx)

/-- Witness for C5: the far pair of the spec example, centroids (5, 5)
and (90, 5) in a 100-row image, yields the blob with centroid (90, 5),
whose squared distance to (100, 0) is 125 against 9050. -/
theorem find_target_region_fallback_bottom_left_witness :
    find_target_region [descF1, descF2] 100 = Except.ok descF2 := by
  obtain ⟨r, hfind, hmem, hmin, _⟩ :=
    find_target_region_fallback_bottom_left [descF1, descF2] 100 [descF1, descF2]
      (by with_unfolding_all rfl) (by with_unfolding_all decide)
      (by with_unfolding_all rfl)
  rcases List.mem_cons.mp hmem with h1 | h1
  · subst h1
    exact absurd (hmin descF2 (by simp)) (by with_unfolding_all decide)
  · exact (List.mem_singleton.mp h1) ▸ hfind

/-- C8: the per-image pipeline is deterministic: two runs on the same
image (same stage-one outcome, same regionprops behaviour, same image
height) produce identical results, including identical failure kinds
and diagnostic payloads. Every stage of the embedding is a pure
function of its inputs. -/
theorem runPipeline_deterministic {α : Type} (s1 s2 : Except ℚ α)
    (props1 props2 : α → List RegionDescriptor) (h1 h2 : ℚ)
    (hs : s1 = s2) (hp : props1 = props2) (hht : h1 = h2) :
    runPipeline s1 props1 h1 = runPipeline s2 props2 h2 := by
  subst hs
  subst hp
  subst hht
  rfl

/-- Witness for C8: a concrete successful run evaluates to a concrete
vocabulary vector, and running it twice gives the same result. -/
theorem runPipeline_deterministic_witness :
    runPipeline (Except.ok ()) (fun _ => [descBig]) 100
      = PipelineResult.ok [50, 0, 0, 0, 0, 0, 0, 0, 10, 0] ∧
    runPipeline (Except.ok ()) (fun _ => [descBig]) 100
      = runPipeline (Except.ok ()) (fun _ => [descBig]) 100 :=
  ⟨by with_unfolding_all rfl,
   runPipeline_deterministic _ _ _ _ _ _ rfl rfl rfl⟩

/-- C9: one iteration of the vocab-extraction loop at image `i` writes
only column `i` on success (every other column and the failure list are
unchanged), and on a selection failure appends exactly one entry to the
failure list and leaves the matrix unchanged. -/
theorem vocabStep_frame {α : Type} (props : Nat → α → List RegionDescriptor) (height : ℚ)
    (labels : Nat → α) (st : List (List ℚ) × List (Nat × String)) (i : Nat) :
    (∀ r, find_target_region (props i (labels i)) height = Except.ok r →
      vocabStep props height labels st i = (st.1.set i (extract_vocab r), st.2) ∧
      ∀ j, j ≠ i → (st.1.set i (extract_vocab r))[j]? = st.1[j]?) ∧
    (∀ e, find_target_region (props i (labels i)) height = Except.error e →
      vocabStep props height labels st i = (st.1, st.2 ++ [(i, "find_target_region")])) := by
  constructor
  · intro r h
    constructor
    · simp [vocabStep, h]
    · intro j hj
      exact List.getElem?_set_ne (Ne.symm hj)
  · intro e h
    simp [vocabStep, h]

/-- Witness for C9: a successful step at image 0 leaves column 1 and
the failure list unchanged. -/
theorem vocabStep_frame_witness :
    (vocabStep (fun _ _ => [descBig]) 100 (fun _ => ())
        ([[(1:ℚ)], [(2:ℚ)]], []) 0).1[1]? = some [(2:ℚ)] ∧
    (vocabStep (fun _ _ => [descBig]) 100 (fun _ => ())
        ([[(1:ℚ)], [(2:ℚ)]], []) 0).2 = [] := by
  have h := (vocabStep_frame (fun _ _ => [descBig]) 100 (fun _ => ())
    ([[(1:ℚ)], [(2:ℚ)]], []) 0).1 descBig (by with_unfolding_all rfl)
  constructor
  · rw [show (vocabStep (fun _ _ => [descBig]) 100 (fun _ => ())
        ([[(1:ℚ)], [(2:ℚ)]], []) 0).1 = _ from congrArg Prod.fst h.1]
    rw [h.2 1 one_ne_zero]
    rfl
  · rw [show (vocabStep (fun _ _ => [descBig]) 100 (fun _ => ())
        ([[(1:ℚ)], [(2:ℚ)]], []) 0).2 = _ from congrArg Prod.snd h.1]

/-- C10: with an empty batch (n = 0) the driver completes and returns a
vocab matrix with zero columns and an empty failure list. -/
theorem batchRun_empty_batch {α : Type} (stage1 : Nat → Except ℚ α) (junk : Nat → α)
    (props : Nat → α → List RegionDescriptor) (height : ℚ) :
    batchRun stage1 junk props height 0 = ⟨[], []⟩ := rfl

/-- C1 (divergence witness): the two-pass driver violates the
one-FailureRecord / skip-after-threshold-failure invariant. First run:
a single image whose thresholding fails; its uninitialized label-buffer
entry is still passed to `find_target_region` in the second pass, which
fails too, so the image receives TWO FailureRecords, one per stage.
Second run: image 1 fails thresholding, but its uninitialized
label-buffer entry happens to yield a successful selection, so column 1
of the matrix is overwritten with a nonzero vector even though image 1
failed (and is listed in the failure list). -/
theorem threshold_failure_reaches_selector :
    (batchRun (fun _ => Except.error 5) (fun _ => ()) (fun _ _ => []) 100 1).failed_indexes
      = [(0, "extract_region_label"), (0, "find_target_region")] ∧
    (batchRun (fun i => if i == 0 then Except.ok true else Except.error 0) (fun _ => false)
        (fun _ l => if l then [descTiny] else [descBig]) 100 2).failed_indexes
      = [(1, "extract_region_label"), (0, "find_target_region")] ∧
    (batchRun (fun i => if i == 0 then Except.ok true else Except.error 0) (fun _ => false)
        (fun _ l => if l then [descTiny] else [descBig]) 100 2).vocab_matrix
      = [List.replicate 10 0, [50, 0, 0, 0, 0, 0, 0, 0, 10, 0]] :=
  ⟨by with_unfolding_all rfl, by with_unfolding_all rfl, by with_unfolding_all rfl⟩

/-- C2 (counterexample): the failure list is NOT ordered by image index
across stages. In a 2-image batch where image 0 fails at the selection
stage and image 1 fails at the thresholding stage, the list is
[(1, extract_region_label), (0, find_target_region)]: both images
failed and 0 < 1, yet index 0 does not appear before index 1. -/
theorem batch_failure_order_cex :
    (batchRun (fun i => if i == 0 then Except.ok true else Except.error 0) (fun _ => false)
        (fun _ l => if l then [descTiny] else [descBig]) 100 2).failed_indexes
      = [(1, "extract_region_label"), (0, "find_target_region")] ∧
    ¬ ((List.map Prod.fst (BatchResult.failed_indexes
          (batchRun (fun i => if i == 0 then Except.ok true else Except.error 0)
            (fun _ => false) (fun _ l => if l then [descTiny] else [descBig]) 100 2))).indexOf 0
        < (List.map Prod.fst (BatchResult.failed_indexes
          (batchRun (fun i => if i == 0 then Except.ok true else Except.error 0)
            (fun _ => false) (fun _ l => if l then [descTiny] else [descBig]) 100 2))).indexOf 1) :=
  ⟨by with_unfolding_all rfl, by with_unfolding_all decide⟩

/-- C2 (amended): the failure list of a batch run is exactly the
stage-one (extract_region_label) failures in increasing image order,
followed by the stage-two (find_target_region) failures in increasing
image order — input order holds within each stage, not across stages
(and a threshold-failed image may appear in both groups, since its
label-buffer entry is still processed by the second pass). -/
theorem batchRun_failed_grouped_by_stage {α : Type} (stage1 : Nat → Except ℚ α)
    (junk : Nat → α) (props : Nat → α → List RegionDescriptor) (height : ℚ) (n : Nat) :
    (batchRun stage1 junk props height n).failed_indexes =
      ((List.range n).filter (stageOneFails stage1)).map
        (fun i => (i, "extract_region_label")) ++
      ((List.range n).filter
        (selectorFails props height (extract_region_labels_from_images stage1 junk n).1)).map
        (fun i => (i, "find_target_region")) := by
  unfold batchRun extract_vocab_from_region_labels
  rw [vocabLoop_failed]
  unfold extract_region_labels_from_images
  rw [regionLabelsLoop_failed]
  simp
